import Mathlib

/-!
Shallow embedding of `src/provision_oci_win_instances_auto_Version3.py`:
an OCI provisioning script that discovers network/image resources,
creates a compartment, polls it to ACTIVE, and sequentially launches
Windows instances.  External cloud calls are modelled as data supplied
in an `Inputs` record; the observable behaviour is an event trace plus
an `Except` outcome.
-/

namespace Prov

/-! ### Python string primitives (ASCII fragment used by the script) -/

/-- Whitespace characters recognised by Python `str.strip()` (ASCII fragment):
space, tab, newline, carriage return, vertical tab, form feed. -/
def isPySpace (c : Char) : Bool :=
  c = ' ' || c = '\t' || c = '\n' || c = '\r' || c = Char.ofNat 11 || c = Char.ofNat 12

/-- Python `str.strip()`: drop whitespace from both ends. -/
def pyStrip (s : String) : String :=
  String.mk (((s.toList.dropWhile isPySpace).reverse.dropWhile isPySpace).reverse)

/-- ASCII lower-casing of one character, as Python `str.lower()` does on ASCII. -/
def pyLowerChar (c : Char) : Char :=
  if 'A' ≤ c ∧ c ≤ 'Z' then Char.ofNat (c.toNat + 32) else c

/-- Python `str.lower()` (ASCII fragment). -/
def pyLower (s : String) : String :=
  String.mk (s.toList.map pyLowerChar)

/-- One decimal digit, as tested by Python `str.isdigit()` on ASCII. -/
def isPyDigit (c : Char) : Bool := '0' ≤ c && c ≤ '9'

/-- Python `str.isdigit()` (ASCII fragment): non-empty and all characters digits. -/
def pyIsDigit (s : String) : Bool :=
  !s.isEmpty && s.toList.all isPyDigit

/-- Python `int(...)` on a digit string: decimal value. -/
def pyInt (s : String) : Nat :=
  s.toList.foldl (fun n c => 10 * n + (c.toNat - '0'.toNat)) 0

/-! ### `choose_from_list` (source lines 4-16)

The Python function prints the candidates, reads one line of input,
strips it, and computes
`idx = int(choice) if choice.isdigit() and int(choice) < len(items) else 0`,
returning `items[idx]`.  Printing and prompting do not affect the returned
value and are not modelled; `items[idx]` on an empty list raises
`IndexError`, modelled by `none`. -/

/-- The index computed by `choose_from_list` from the raw input line
(the `.strip()` applied at the `input(...)` call site is folded in here)
and the candidate count. -/
def choose_index (rawChoice : String) (n : Nat) : Nat :=
  if pyIsDigit (pyStrip rawChoice) ∧ pyInt (pyStrip rawChoice) < n then
    pyInt (pyStrip rawChoice)
  else 0

/-- Function `choose_from_list`: returns `items[idx]`; `none` models the
`IndexError` raised when the list is empty. -/
def choose_from_list {α : Type} (items : List α) (rawChoice : String) : Option α :=
  items.get? (choose_index rawChoice items.length)

/-! ### Data model -/

/-- A VCN or subnet as used by the script: only `id` and `display_name` matter. -/
structure NamedRes where
  id : Nat
  display_name : String
deriving DecidableEq, Repr

/-- An availability domain (only `name` is used). -/
structure AvailDomain where
  name : String
deriving DecidableEq, Repr

/-- An image catalog entry: `id`, `display_name`, `time_created`. -/
structure Image where
  id : Nat
  display_name : String
  time_created : Int
deriving DecidableEq, Repr

/-! ### Fixed configuration constants (source lines 85-92) -/

def COMPARTMENT_NAME : String := "tempcomp"
def COMPARTMENT_DESC : String := "Temporary compartment created via script"
/-- Constant `INSTANCE_PREFIX` in the source. -/
def INSTANCE_BASENAME : String := "auto-win-instance"
def INSTANCE_COUNT : Nat := 4
def SHAPE : String := "VM.Standard3.Flex"
def OCPUS : Nat := 54
def MEMORY_GBS : Nat := 512
def BOOT_VOL_GBS : Nat := 50
/-- The compartment poll loop runs `for i in range(30)`. -/
def POLL_ATTEMPTS : Nat := 30

/-! ### Image sort (source line 79)

`images.sort(key=lambda x: x.time_created, reverse=True)` is Python's
stable sort, descending by `time_created` with ties kept in original
order.  It is modelled by insertion sort under the relation
"earlier element stays in front iff its timestamp is ≥", which is the
unique stable most-recent-first order. -/

/-- Relation `imgGE a b` holds when `a` may stay in front of `b` in the descending
order: `a`'s creation time is at least `b`'s. -/
def imgGE (a b : Image) : Prop := b.time_created ≤ a.time_created

instance : DecidableRel imgGE := fun a b =>
  inferInstanceAs (Decidable (b.time_created ≤ a.time_created))

instance : IsTotal Image imgGE := ⟨fun a b => le_total b.time_created a.time_created⟩

instance : IsTrans Image imgGE := ⟨fun _ _ _ hab hbc => le_trans hbc hab⟩

/-- The image ranking: stable descending sort by `time_created`. -/
def sortImagesDesc (l : List Image) : List Image := l.insertionSort imgGE

/-! ### Run outcomes and observable events -/

/-- Terminal conditions of the script.  `invalidInput`, `notFound` and
`timeout` correspond to the explicit `exit(1)` sites; `indexError` models
an unhandled Python `IndexError` (indexing an empty list); `waitTimeout`
models `oci.wait_until` exceeding `max_wait_seconds`. -/
inductive Cond where
  | invalidInput
  | notFound (what : String)
  | timeout
  | indexError
  | waitTimeout
deriving DecidableEq, Repr

/-- Cloud calls the script performs, in order of occurrence. -/
inductive Event where
  | listVcns
  | listSubnets (vcnId : Nat)
  | listAds
  | listImages
  | createCompartment
  | getCompartment (attempt : Nat)
  | launchInstance (name : String)
  | instanceRunning (name : String)
deriving DecidableEq, Repr

/-- The environment of one run: interactive answers and the data the cloud
client would return.  `subnetsOf v` is the subnet listing for VCN id `v`;
`compStates i` is the compartment lifecycle state reported at poll attempt
`i`; `waitOk i` says whether instance `i`'s wait reaches RUNNING within
its budget. -/
structure Inputs where
  tenancy : String
  useRootAnswer : String
  parentOcidInput : String
  vcnChoice : String
  subnetChoice : String
  adChoice : String
  imageChoice : String
  vcns : List NamedRes
  subnetsOf : Nat → List NamedRes
  ads : List AvailDomain
  images : List Image
  newCompartmentId : Nat
  compStates : Nat → String
  waitOk : Nat → Bool

/-! ### Step 1: parent scope resolution (source lines 28-37) -/

/-- Step 1 of the script: the `use_root` prompt branch.  Only the answer
`"n"` (after strip and lower) takes the custom-OCID path, which validates
the `"ocid1.compartment."` format; every other answer uses the tenancy. -/
def resolveParent (tenancy useRootAns ocidInput : String) : Except Cond String :=
  if pyLower (pyStrip useRootAns) = "n" then
    let p := pyStrip ocidInput
    if p.startsWith "ocid1.compartment." then .ok p
    else .error .invalidInput
  else .ok tenancy

/-! ### Steps 2-4: resource discovery (source lines 39-82) -/

/-- Output of the discovery stage: the identifiers threaded into launches. -/
structure DiscoveryOut where
  subnet_id : Nat
  ad_name : String
  image_id : Nat
deriving DecidableEq, Repr

/-- Steps 2-4 of the script: list VCNs (non-empty check, select), list
subnets of the chosen VCN (non-empty check, select), list availability
domains (the source has NO non-empty check here, so selection on an empty
listing hits `items[idx]` and raises `IndexError`), list Windows images
(non-empty check, sort descending by `time_created`, select). -/
def runDiscovery (inp : Inputs) : List Event × Except Cond DiscoveryOut :=
  let evs1 := [Event.listVcns]
  if inp.vcns = [] then (evs1, .error (.notFound "VCN")) else
  match choose_from_list inp.vcns inp.vcnChoice with
  | none => (evs1, .error .indexError)
  | some vcn =>
    let subs := inp.subnetsOf vcn.id
    let evs2 := evs1 ++ [Event.listSubnets vcn.id]
    if subs = [] then (evs2, .error (.notFound "subnet")) else
    match choose_from_list subs inp.subnetChoice with
    | none => (evs2, .error .indexError)
    | some subnet =>
      let evs3 := evs2 ++ [Event.listAds]
      match choose_from_list inp.ads inp.adChoice with
      | none => (evs3, .error .indexError)
      | some ad =>
        let evs4 := evs3 ++ [Event.listImages]
        if inp.images = [] then (evs4, .error (.notFound "image")) else
        match choose_from_list (sortImagesDesc inp.images) inp.imageChoice with
        | none => (evs4, .error .indexError)
        | some img => (evs4, .ok ⟨subnet.id, ad.name, img.id⟩)

/-- Parent-scope resolution followed by discovery: the prompt branch runs
before any cloud call, so an invalid OCID yields an empty event trace. -/
def runDiscoveryFull (inp : Inputs) : List Event × Except Cond DiscoveryOut :=
  match resolveParent inp.tenancy inp.useRootAnswer inp.parentOcidInput with
  | .error c => ([], .error c)
  | .ok _ => runDiscovery inp

/-! ### Step 5: compartment creation and ACTIVE poll (source lines 94-115) -/

/-- The poll loop body starting at attempt `i` with `r` attempts left:
each attempt calls `get_compartment` (one event), breaks when the state
is ACTIVE, else sleeps 2 seconds and continues; returns the attempt index
on success. -/
def pollFrom (states : Nat → String) : Nat → Nat → List Event × Option Nat
  | _, 0 => ([], none)
  | i, r + 1 =>
    if states i = "ACTIVE" then ([Event.getCompartment i], some i)
    else
      let (evs, res) := pollFrom states (i + 1) r
      (Event.getCompartment i :: evs, res)

/-- Step 5: `create_compartment` then `for i in range(30)` polling for
ACTIVE; the `for`-`else` exits with a timeout when no attempt saw ACTIVE. -/
def provisionCompartment (states : Nat → String) : List Event × Except Cond Nat :=
  match pollFrom states 0 POLL_ATTEMPTS with
  | (evs, some k) => (Event.createCompartment :: evs, .ok k)
  | (evs, none) => (Event.createCompartment :: evs, .error .timeout)

/-! ### Step 6: instance launch loop (source lines 117-158) -/

/-- The `LaunchInstanceDetails` the script submits (nested
`InstanceSourceViaImageDetails`, `LaunchInstanceShapeConfigDetails` and
`CreateVnicDetails` flattened into one record). -/
structure LaunchInstanceDetails where
  compartment_id : Nat
  availability_domain : String
  shape : String
  display_name : String
  source_type : String
  image_id : Nat
  boot_volume_size_in_gbs : Nat
  ocpus : Nat
  memory_in_gbs : Nat
  subnet_id : Nat
  assign_public_ip : Bool
deriving DecidableEq, Repr

/-- The launch details built for one instance (source lines 124-142). -/
def mkLaunchDetails (cid : Nat) (d : DiscoveryOut) (name : String) : LaunchInstanceDetails :=
  { compartment_id := cid
    availability_domain := d.ad_name
    shape := SHAPE
    display_name := name
    source_type := "image"
    image_id := d.image_id
    boot_volume_size_in_gbs := BOOT_VOL_GBS
    ocpus := OCPUS
    memory_in_gbs := MEMORY_GBS
    subnet_id := d.subnet_id
    assign_public_ip := true }

/-- The launch loop from index `idx` with `r` iterations left: build the
display name `f"{INSTANCE_PREFIX}-{idx + 1}"`, submit the launch, then
block in `oci.wait_until` for RUNNING; a wait timeout raises and aborts
the remaining iterations.  Returns the event trace, all submitted launch
details, and the outcome. -/
def launchFrom (d : DiscoveryOut) (cid : Nat) (waitOk : Nat → Bool) :
    Nat → Nat → List Event × List LaunchInstanceDetails × Except Cond Unit
  | _, 0 => ([], [], .ok ())
  | idx, r + 1 =>
    let name := INSTANCE_BASENAME ++ "-" ++ toString (idx + 1)
    let details := mkLaunchDetails cid d name
    if waitOk idx then
      let (evs, ds, res) := launchFrom d cid waitOk (idx + 1) r
      (Event.launchInstance name :: Event.instanceRunning name :: evs, details :: ds, res)
    else
      ([Event.launchInstance name], [details], .error .waitTimeout)

/-- The whole script: resolve parent scope, discovery, compartment
provisioning, then the sequential launch loop.  Any stage failure aborts
the run with that stage's condition and no later events. -/
def runProvisioning (inp : Inputs) : List Event × Except Cond (List LaunchInstanceDetails) :=
  match runDiscoveryFull inp with
  | (evs, .error c) => (evs, .error c)
  | (evs, .ok d) =>
    match provisionCompartment inp.compStates with
    | (pevs, .error c) => (evs ++ pevs, .error c)
    | (pevs, .ok _) =>
      match launchFrom d inp.newCompartmentId inp.waitOk 0 INSTANCE_COUNT with
      | (levs, ds, .ok _) => (evs ++ pevs ++ levs, .ok ds)
      | (levs, _, .error c) => (evs ++ pevs ++ levs, .error c)

/-! ### Concrete environments used by witnesses -/

/-- A small healthy environment: one VCN, one subnet, one availability
domain, one image, compartment immediately ACTIVE, all waits succeed. -/
def baseInputs : Inputs where
  tenancy := "ocid1.tenancy.oc1..aaa"
  useRootAnswer := ""
  parentOcidInput := ""
  vcnChoice := ""
  subnetChoice := ""
  adChoice := ""
  imageChoice := ""
  vcns := [⟨1, "vcn-a"⟩]
  subnetsOf := fun _ => [⟨2, "subnet-a"⟩]
  ads := [⟨"AD-1"⟩]
  images := [⟨3, "win-img", 100⟩]
  newCompartmentId := 9
  compStates := fun _ => "ACTIVE"
  waitOk := fun _ => true

/-- Environment `baseInputs` with an empty availability-domain listing. -/
def emptyAdInputs : Inputs := { baseInputs with ads := [] }

/-- Environment `baseInputs` with a compartment that never reports ACTIVE. -/
def timeoutInputs : Inputs := { baseInputs with compStates := fun _ => "CREATING" }

/-! ### Claim theorems -/

/-- Claim C1: for every non-empty candidate list, `choose_from_list`
returns the element at the caller-supplied index when the (stripped)
input is a digit string whose value is in range, and the element at
index 0 when the input is blank, non-numeric, or out of range. -/
theorem C1_selector_default {α : Type} (l : List α) (s : String) (h : l ≠ []) :
    (pyIsDigit (pyStrip s) = true → pyInt (pyStrip s) < l.length →
        choose_from_list l s = l.get? (pyInt (pyStrip s)) ∧
          l.get? (pyInt (pyStrip s)) ≠ none) ∧
    (¬(pyIsDigit (pyStrip s) = true ∧ pyInt (pyStrip s) < l.length) →
        choose_from_list l s = l.get? 0 ∧ l.get? 0 ≠ none) := by
  have hlen : 0 < l.length := List.length_pos.mpr h
  constructor
  · intro hd hlt
    refine ⟨?_, ?_⟩
    · unfold choose_from_list choose_index
      rw [if_pos ⟨hd, hlt⟩]
    · rw [ne_eq, List.get?_eq_none]
      omega
  · intro hcond
    refine ⟨?_, ?_⟩
    · unfold choose_from_list choose_index
      rw [if_neg hcond]
    · rw [ne_eq, List.get?_eq_none]
      omega

/-- Witness for C1 at a concrete list and inputs. -/
theorem C1_selector_default_witness :
    choose_from_list ["a", "b", "c"] " 2 " = (["a", "b", "c"] : List String).get? 2 ∧
      (["a", "b", "c"] : List String).get? 2 ≠ none :=
  (C1_selector_default ["a", "b", "c"] " 2 " (by decide)).1 (by decide) (by decide)

/-- Claim C9: for a non-empty candidate list, the index computed by
`choose_from_list` is always in bounds, so the function returns a member
of the list and never indexes out of range. -/
theorem C9_selector_safe {α : Type} (l : List α) (s : String) (h : 0 < l.length) :
    choose_index s l.length < l.length ∧
      ∃ a, choose_from_list l s = some a ∧ a ∈ l := by
  have hidx : choose_index s l.length < l.length := by
    unfold choose_index
    split
    next hc => exact hc.2
    next => exact h
  refine ⟨hidx, l.get ⟨choose_index s l.length, hidx⟩, ?_, List.get_mem l _ _⟩
  unfold choose_from_list
  exact List.get?_eq_get hidx

/-- Witness for C9 at a concrete list and input. -/
theorem C9_selector_safe_witness :
    choose_index "17" 3 < 3 ∧
      ∃ a, choose_from_list [10, 20, 30] "17" = some a ∧ a ∈ [10, 20, 30] :=
  C9_selector_safe [10, 20, 30] "17" (by decide)

/-- Claim C10: only the stripped, lowercased answer `"n"` takes the
custom parent-scope path; every other answer (including `"no"`) uses the
tenancy as parent scope with no format validation of the OCID input. -/
theorem C10_use_root_branch (tenancy ans ocid : String) :
    (pyLower (pyStrip ans) ≠ "n" → resolveParent tenancy ans ocid = .ok tenancy) ∧
    (pyLower (pyStrip ans) = "n" →
      resolveParent tenancy ans ocid =
        if (pyStrip ocid).startsWith "ocid1.compartment." then .ok (pyStrip ocid)
        else .error .invalidInput) := by
  constructor
  · intro hne
    unfold resolveParent
    rw [if_neg hne]
  · intro heq
    unfold resolveParent
    rw [if_pos heq]

/-- Witness for C10: the answer `"no"` with a malformed OCID still
selects the tenancy (no validation on that path). -/
theorem C10_use_root_branch_witness :
    resolveParent "ocid1.tenancy.oc1..aaa" "no" "garbage" = .ok "ocid1.tenancy.oc1..aaa" :=
  (C10_use_root_branch "ocid1.tenancy.oc1..aaa" "no" "garbage").1 (by decide)

/-- Claim C7: an answer of `"n"` with a parent OCID not starting with
`"ocid1.compartment."` aborts the run with `invalidInput` and an empty
event trace: no listing call and no cloud mutation has happened. -/
theorem C7_invalid_ocid_aborts_early (inp : Inputs)
    (hn : pyLower (pyStrip inp.useRootAnswer) = "n")
    (hbad : (pyStrip inp.parentOcidInput).startsWith "ocid1.compartment." = false) :
    runProvisioning inp = ([], .error .invalidInput) := by
  have hr : resolveParent inp.tenancy inp.useRootAnswer inp.parentOcidInput
      = .error .invalidInput := by
    unfold resolveParent
    rw [if_pos hn, if_neg (by simp [hbad])]
  unfold runProvisioning runDiscoveryFull
  rw [hr]

/-- Witness for C7 at a concrete environment. -/
theorem C7_invalid_ocid_aborts_early_witness :
    runProvisioning
        { baseInputs with useRootAnswer := " N ", parentOcidInput := "ocid1.tenancy.bad" } =
      ([], .error .invalidInput) :=
  C7_invalid_ocid_aborts_early _ (by decide) (by decide)

/-- Claim C2 (code behaviour at the failing input): with an empty
availability-domain listing the script performs the `list_ads` call and
then invokes `choose_from_list` on the empty list, which crashes with an
`IndexError` — it does not abort with a "no resources found" condition
before the selector runs (the source has no emptiness check at step 3,
unlike steps 2 and 4). -/
theorem C2_empty_zone_listing_crashes :
    runProvisioning emptyAdInputs =
      ([Event.listVcns, Event.listSubnets 1, Event.listAds], .error .indexError) := by
  rfl

/-! ### Poll-loop lemmas -/

/-- If no attempt in the window sees ACTIVE, the poll loop performs all
`r` `get_compartment` calls and reports no success. -/
theorem pollFrom_none (states : Nat → String) :
    ∀ r i, (∀ j, j < r → states (i + j) ≠ "ACTIVE") →
      pollFrom states i r =
        ((List.range r).map (fun j => Event.getCompartment (i + j)), none) := by
  intro r
  induction r with
  | zero => intro i _; simp [pollFrom]
  | succ r ih =>
    intro i h
    have h0 : states i ≠ "ACTIVE" := by simpa using h 0 (Nat.succ_pos r)
    have hrest : ∀ j, j < r → states (i + 1 + j) ≠ "ACTIVE" := by
      intro j hj
      have := h (j + 1) (by omega)
      rw [show i + 1 + j = i + (j + 1) by omega]
      exact this
    rw [pollFrom, if_neg h0, ih (i + 1) hrest]
    have hshift : ∀ j : Nat, i + 1 + j = i + (j + 1) := fun j => by omega
    simp [List.range_succ_eq_map, List.map_map, Function.comp_def, hshift]

/-- If the first ACTIVE report is at attempt `i + k` (with `k` attempts
still inside the window), the poll loop performs exactly the attempts up
to and including it and returns that attempt index. -/
theorem pollFrom_finds (states : Nat → String) :
    ∀ r i k, k < r → states (i + k) = "ACTIVE" →
      (∀ j, j < k → states (i + j) ≠ "ACTIVE") →
      pollFrom states i r =
        ((List.range (k + 1)).map (fun j => Event.getCompartment (i + j)), some (i + k)) := by
  intro r
  induction r with
  | zero => intro i k hk; omega
  | succ r ih =>
    intro i k hk hact hprev
    by_cases h0 : states i = "ACTIVE"
    · have hk0 : k = 0 := by
        by_contra hne
        exact hprev 0 (by omega) (by simpa using h0)
      subst hk0
      rw [pollFrom, if_pos h0]
      simp [List.range_succ]
    · have hkpos : k ≠ 0 := by
        intro hz
        subst hz
        exact h0 (by simpa using hact)
      obtain ⟨k', rfl⟩ : ∃ k', k = k' + 1 := ⟨k - 1, by omega⟩
      have hact' : states (i + 1 + k') = "ACTIVE" := by
        rw [show i + 1 + k' = i + (k' + 1) by omega]; exact hact
      have hprev' : ∀ j, j < k' → states (i + 1 + j) ≠ "ACTIVE" := by
        intro j hj
        rw [show i + 1 + j = i + (j + 1) by omega]
        exact hprev (j + 1) (by omega)
      rw [pollFrom, if_neg h0, ih (i + 1) k' (by omega) hact' hprev']
      have hshift : ∀ j : Nat, i + 1 + j = i + (j + 1) := fun j => by omega
      simp [List.range_succ_eq_map, List.map_map, Function.comp_def, hshift]

/-- No event emitted by parent resolution and discovery is an instance
launch (only listings happen before compartment creation). -/
theorem runDiscovery_no_launch (inp : Inputs) (s : String) :
    Event.launchInstance s ∉ (runDiscovery inp).1 := by
  unfold runDiscovery
  by_cases h1 : inp.vcns = []
  · simp [h1]
  · simp only [if_neg h1]
    cases hv : choose_from_list inp.vcns inp.vcnChoice with
    | none => simp
    | some vcn =>
      by_cases h2 : inp.subnetsOf vcn.id = []
      · simp [h2]
      · simp only [if_neg h2]
        cases hs : choose_from_list (inp.subnetsOf vcn.id) inp.subnetChoice with
        | none => simp
        | some sn =>
          cases ha : choose_from_list inp.ads inp.adChoice with
          | none => simp
          | some ad =>
            by_cases h3 : inp.images = []
            · simp [h3]
            · simp only [if_neg h3]
              cases hi : choose_from_list (sortImagesDesc inp.images) inp.imageChoice with
              | none => simp
              | some img => simp

/-- No event emitted by parent resolution and discovery is an instance
launch (only listings happen before compartment creation). -/
theorem runDiscoveryFull_no_launch (inp : Inputs) (s : String) :
    Event.launchInstance s ∉ (runDiscoveryFull inp).1 := by
  unfold runDiscoveryFull
  split
  · simp
  · exact runDiscovery_no_launch inp s

/-- Claim C4: if `get_compartment` first reports ACTIVE at attempt `k`
(0-based, so within the 30-attempt budget when `k < 30`), the provisioner
succeeds at that attempt and performs no poll attempt after it: the trace
is exactly the creation call followed by attempts `0..k`. -/
theorem C4_compartment_active_stops (states : Nat → String) (k : Nat)
    (hk : k < POLL_ATTEMPTS) (hact : states k = "ACTIVE")
    (hprev : ∀ j, j < k → states j ≠ "ACTIVE") :
    provisionCompartment states =
      (Event.createCompartment :: (List.range (k + 1)).map Event.getCompartment, .ok k) := by
  have hfind := pollFrom_finds states POLL_ATTEMPTS 0 k hk (by simpa using hact)
    (by intro j hj; simpa using hprev j hj)
  unfold provisionCompartment
  rw [hfind]
  simp

/-- Witness for C4: ACTIVE first observed at attempt 2 stops the loop
after 3 `get_compartment` calls. -/
theorem C4_compartment_active_stops_witness :
    provisionCompartment (fun i => if i = 2 then "ACTIVE" else "CREATING") =
      (Event.createCompartment :: (List.range 3).map Event.getCompartment, .ok 2) :=
  C4_compartment_active_stops (fun i => if i = 2 then "ACTIVE" else "CREATING") 2
    (by decide) (by decide) (by decide)

/-- Claim C3: if the compartment never reports ACTIVE in the 30 poll
attempts, the run ends with the timeout condition (after the creation
call and exactly 30 `get_compartment` attempts) and no instance launch is
ever attempted. -/
theorem C3_compartment_timeout_no_launch (inp : Inputs) (evs : List Event) (d : DiscoveryOut)
    (hdisc : runDiscoveryFull inp = (evs, .ok d))
    (h : ∀ i, i < POLL_ATTEMPTS → inp.compStates i ≠ "ACTIVE") :
    runProvisioning inp =
      (evs ++ Event.createCompartment :: (List.range POLL_ATTEMPTS).map Event.getCompartment,
        .error .timeout) ∧
    ∀ s, Event.launchInstance s ∉ (runProvisioning inp).1 := by
  have hpoll : provisionCompartment inp.compStates =
      (Event.createCompartment :: (List.range POLL_ATTEMPTS).map Event.getCompartment,
        .error .timeout) := by
    have hnone := pollFrom_none inp.compStates POLL_ATTEMPTS 0
      (by intro j hj; simpa using h j hj)
    unfold provisionCompartment
    rw [hnone]
    simp
  have hrun : runProvisioning inp =
      (evs ++ Event.createCompartment :: (List.range POLL_ATTEMPTS).map Event.getCompartment,
        .error .timeout) := by
    unfold runProvisioning
    rw [hdisc, hpoll]
  refine ⟨hrun, fun s => ?_⟩
  rw [hrun]
  have hd : Event.launchInstance s ∉ evs := by
    have := runDiscoveryFull_no_launch inp s
    rw [hdisc] at this
    simpa using this
  simp [List.mem_append, hd]

/-- Witness for C3: a compartment stuck in CREATING produces the timeout
after the discovery listings, creation, and 30 poll attempts. -/
theorem C3_compartment_timeout_no_launch_witness :
    runProvisioning timeoutInputs =
      ([Event.listVcns, Event.listSubnets 1, Event.listAds, Event.listImages] ++
        Event.createCompartment :: (List.range POLL_ATTEMPTS).map Event.getCompartment,
        .error .timeout) :=
  (C3_compartment_timeout_no_launch timeoutInputs
    [Event.listVcns, Event.listSubnets 1, Event.listAds, Event.listImages]
    ⟨2, "AD-1", 3⟩ rfl (by decide)).1

/-! ### Launch-loop lemmas -/

/-- The display name of instance `idx` (0-based): `f"{INSTANCE_PREFIX}-{idx + 1}"`. -/
def instName (idx : Nat) : String :=
  INSTANCE_BASENAME ++ "-" ++ toString (idx + 1)

/-- The event trace of `r` fully successful sequential launches starting
at instance `idx`: each submission immediately followed by its RUNNING
confirmation, in index order. -/
def okTrace (idx : Nat) : Nat → List Event
  | 0 => []
  | r + 1 =>
    Event.launchInstance (instName idx) :: Event.instanceRunning (instName idx) ::
      okTrace (idx + 1) r

/-- When every wait in the window succeeds, the launch loop emits exactly
the strictly sequential launch/running trace and succeeds. -/
theorem launchFrom_all_ok (d : DiscoveryOut) (cid : Nat) (waitOk : Nat → Bool) :
    ∀ r idx, (∀ i, idx ≤ i → i < idx + r → waitOk i = true) →
      (launchFrom d cid waitOk idx r).1 = okTrace idx r ∧
        (launchFrom d cid waitOk idx r).2.2 = .ok () := by
  intro r
  induction r with
  | zero => intro idx _; exact ⟨rfl, rfl⟩
  | succ r ih =>
    intro idx h
    have hidx : waitOk idx = true := h idx (le_refl idx) (by omega)
    have hrest := ih (idx + 1) (fun i h1 h2 => h i (by omega) (by omega))
    rw [launchFrom]
    rw [if_pos hidx]
    exact ⟨by rw [okTrace, ← hrest.1]; rfl, hrest.2⟩

/-- Claim C5: with `INSTANCE_COUNT = 4` and the fixed name prefix, the
launch loop emits exactly the four display names
`auto-win-instance-1 .. -4`, submits them strictly in that order, and
each submission is preceded by the previous instance's RUNNING
confirmation (the trace alternates launch/running per instance). -/
theorem C5_launch_names_order (d : DiscoveryOut) (cid : Nat) (waitOk : Nat → Bool)
    (h : ∀ i, i < INSTANCE_COUNT → waitOk i = true) :
    (launchFrom d cid waitOk 0 INSTANCE_COUNT).1 =
      [Event.launchInstance "auto-win-instance-1", Event.instanceRunning "auto-win-instance-1",
       Event.launchInstance "auto-win-instance-2", Event.instanceRunning "auto-win-instance-2",
       Event.launchInstance "auto-win-instance-3", Event.instanceRunning "auto-win-instance-3",
       Event.launchInstance "auto-win-instance-4",
       Event.instanceRunning "auto-win-instance-4"] := by
  have hall := (launchFrom_all_ok d cid waitOk INSTANCE_COUNT 0
    (fun i _ h2 => h i (by simpa using h2))).1
  rw [hall]
  rfl

/-- Witness for C5 with all waits succeeding. -/
theorem C5_launch_names_order_witness :
    (launchFrom ⟨2, "AD-1", 3⟩ 9 (fun _ => true) 0 INSTANCE_COUNT).1 =
      [Event.launchInstance "auto-win-instance-1", Event.instanceRunning "auto-win-instance-1",
       Event.launchInstance "auto-win-instance-2", Event.instanceRunning "auto-win-instance-2",
       Event.launchInstance "auto-win-instance-3", Event.instanceRunning "auto-win-instance-3",
       Event.launchInstance "auto-win-instance-4",
       Event.instanceRunning "auto-win-instance-4"] :=
  C5_launch_names_order ⟨2, "AD-1", 3⟩ 9 (fun _ => true) (fun _ _ => rfl)

/-- Claim C8: every `LaunchInstanceDetails` the launch loop submits
carries the discovery outputs unchanged (subnet id, availability-domain
name, image id), the compartment id of the compartment created in this
run, and the fixed constants: shape, OCPU count, memory, boot volume
size, and public-IP flag `true`. -/
theorem C8_launch_spec_fields (d : DiscoveryOut) (cid : Nat) (waitOk : Nat → Bool) :
    ∀ r idx spec, spec ∈ (launchFrom d cid waitOk idx r).2.1 →
      spec.compartment_id = cid ∧ spec.availability_domain = d.ad_name ∧
      spec.subnet_id = d.subnet_id ∧ spec.image_id = d.image_id ∧
      spec.shape = SHAPE ∧ spec.ocpus = OCPUS ∧ spec.memory_in_gbs = MEMORY_GBS ∧
      spec.boot_volume_size_in_gbs = BOOT_VOL_GBS ∧ spec.source_type = "image" ∧
      spec.assign_public_ip = true := by
  intro r
  induction r with
  | zero =>
    intro idx spec hmem
    simp [launchFrom] at hmem
  | succ r ih =>
    intro idx spec hmem
    rw [launchFrom] at hmem
    by_cases hw : waitOk idx = true
    · rw [if_pos hw] at hmem
      rcases List.mem_cons.mp hmem with hspec | hspec
      · subst hspec
        exact ⟨rfl, rfl, rfl, rfl, rfl, rfl, rfl, rfl, rfl, rfl⟩
      · exact ih (idx + 1) spec hspec
    · rw [if_neg hw] at hmem
      rcases List.mem_singleton.mp hmem with hspec
      subst hspec
      exact ⟨rfl, rfl, rfl, rfl, rfl, rfl, rfl, rfl, rfl, rfl⟩

/-- Witness for C8 at the first submitted spec of a concrete run. -/
theorem C8_launch_spec_fields_witness :
    (mkLaunchDetails 9 ⟨2, "AD-1", 3⟩ "auto-win-instance-1").compartment_id = 9 ∧
    (mkLaunchDetails 9 ⟨2, "AD-1", 3⟩ "auto-win-instance-1").availability_domain = "AD-1" ∧
    (mkLaunchDetails 9 ⟨2, "AD-1", 3⟩ "auto-win-instance-1").subnet_id = 2 ∧
    (mkLaunchDetails 9 ⟨2, "AD-1", 3⟩ "auto-win-instance-1").image_id = 3 ∧
    (mkLaunchDetails 9 ⟨2, "AD-1", 3⟩ "auto-win-instance-1").shape = SHAPE ∧
    (mkLaunchDetails 9 ⟨2, "AD-1", 3⟩ "auto-win-instance-1").ocpus = OCPUS ∧
    (mkLaunchDetails 9 ⟨2, "AD-1", 3⟩ "auto-win-instance-1").memory_in_gbs = MEMORY_GBS ∧
    (mkLaunchDetails 9 ⟨2, "AD-1", 3⟩ "auto-win-instance-1").boot_volume_size_in_gbs
      = BOOT_VOL_GBS ∧
    (mkLaunchDetails 9 ⟨2, "AD-1", 3⟩ "auto-win-instance-1").source_type = "image" ∧
    (mkLaunchDetails 9 ⟨2, "AD-1", 3⟩ "auto-win-instance-1").assign_public_ip = true :=
  C8_launch_spec_fields ⟨2, "AD-1", 3⟩ 9 (fun _ => true) INSTANCE_COUNT 0
    (mkLaunchDetails 9 ⟨2, "AD-1", 3⟩ "auto-win-instance-1") (by decide)

/-! ### Stability of the image sort -/

/-- Inserting an element that fails the filter does not change the
filtered list. -/
theorem filter_orderedInsert_neg (p : Image → Bool) (x : Image) (hx : p x = false) :
    ∀ l : List Image, (List.orderedInsert imgGE x l).filter p = l.filter p := by
  intro l
  induction l with
  | nil => simp [List.orderedInsert, hx]
  | cons y ys ih =>
    rw [List.orderedInsert]
    by_cases hr : imgGE x y
    · rw [if_pos hr]
      simp [List.filter_cons, hx]
    · rw [if_neg hr]
      simp [List.filter_cons, ih]

/-- Inserting an element that passes the filter, when every element it
is inserted past fails the filter, prepends it to the filtered list. -/
theorem filter_orderedInsert_pos (p : Image → Bool) (x : Image) (hx : p x = true)
    (hskip : ∀ y, ¬imgGE x y → p y = false) :
    ∀ l : List Image, (List.orderedInsert imgGE x l).filter p = x :: l.filter p := by
  intro l
  induction l with
  | nil => simp [List.orderedInsert, hx]
  | cons y ys ih =>
    rw [List.orderedInsert]
    by_cases hr : imgGE x y
    · rw [if_pos hr]
      simp [List.filter_cons, hx]
    · rw [if_neg hr]
      have hy : p y = false := hskip y hr
      simp [List.filter_cons, hy, ih]

/-- Elements sharing one creation timestamp keep their original relative
order through the sort. -/
theorem sortImagesDesc_stable (t : Int) :
    ∀ l : List Image,
      (sortImagesDesc l).filter (fun x => decide (x.time_created = t)) =
        l.filter (fun x => decide (x.time_created = t)) := by
  intro l
  induction l with
  | nil => rfl
  | cons a l ih =>
    show (List.orderedInsert imgGE a (sortImagesDesc l)).filter _ = _
    by_cases ha : a.time_created = t
    · rw [filter_orderedInsert_pos _ a (by simp [ha])
        (fun y hy => by
          simp only [imgGE, not_le] at hy
          simp only [decide_eq_false_iff_not]
          omega),
        ih]
      simp [List.filter_cons, ha]
    · rw [filter_orderedInsert_neg _ a (by simp [ha]), ih]
      simp [List.filter_cons, ha]

/-- Claim C6: the image ranking is a stable descending sort by creation
timestamp: the output is pairwise most-recent-first, is a permutation of
the input, and candidates with equal timestamps keep their original
relative order. -/
theorem C6_image_sort_stable_desc (l : List Image) :
    List.Pairwise (fun a b => b.time_created ≤ a.time_created) (sortImagesDesc l) ∧
    List.Perm (sortImagesDesc l) l ∧
    ∀ t : Int,
      (sortImagesDesc l).filter (fun x => decide (x.time_created = t)) =
        l.filter (fun x => decide (x.time_created = t)) :=
  ⟨List.sorted_insertionSort imgGE l, List.perm_insertionSort imgGE l,
    fun t => sortImagesDesc_stable t l⟩

end Prov
